import Mathlib

/-!
Shallow embedding of the decision-support core of the toll-plaza
traffic-operations repository: the lane allocator (`lane.py`), the dynamic
pricing engine and quantile classifier (`pricing.py`), and the threshold
congestion classifier plus proximity search (`Geospatial.py`).

Machine integers are modelled as `ℤ`/`ℕ`, Python floats on the exact inputs
appearing here as `ℚ`; Python's built-in `round` (round-half-to-even) is
modelled exactly on `ℚ`.
-/

/-- Python's built-in `round` on a rational: nearest integer, ties to even
(banker's rounding). -/
def pyRound (q : ℚ) : ℤ :=
  if q - ⌊q⌋ < 1/2 then ⌊q⌋
  else if (1:ℚ)/2 < q - ⌊q⌋ then ⌊q⌋ + 1
  else if ⌊q⌋ % 2 = 0 then ⌊q⌋ else ⌊q⌋ + 1

theorem pyRound_ge_floor (q : ℚ) : ⌊q⌋ ≤ pyRound q := by
  unfold pyRound; split_ifs <;> omega

theorem pyRound_le_floor_add_one (q : ℚ) : pyRound q ≤ ⌊q⌋ + 1 := by
  unfold pyRound; split_ifs <;> omega

theorem pyRound_nonneg (q : ℚ) (h : 0 ≤ q) : 0 ≤ pyRound q :=
  le_trans (Int.floor_nonneg.mpr h) (pyRound_ge_floor q)

theorem pyRound_intCast (n : ℤ) : pyRound (n : ℚ) = n := by
  unfold pyRound
  rw [Int.floor_intCast]
  simp

theorem pyRound_le_of_le (q : ℚ) (n : ℤ) (h : q ≤ n) : pyRound q ≤ n := by
  rcases eq_or_lt_of_le h with heq | hlt
  · rw [heq, pyRound_intCast]
  · have hfl : ⌊q⌋ < n := by
      have : (⌊q⌋ : ℚ) < n := lt_of_le_of_lt (Int.floor_le q) hlt
      exact_mod_cast this
    have := pyRound_le_floor_add_one q
    omega

/-- The ratio `north / total` as computed at src/lane.py line 32. -/
def north_ratio (north south : ℕ) : ℚ :=
  (north : ℚ) / ((north + south : ℕ) : ℚ)

/-- src/lane.py lines 27-38, `calculate_lane_allocation`.  Python integers
are `ℤ`, the float ratio arithmetic is exact here so it is carried in `ℚ`,
and Python's `round` is `pyRound`. -/
def calculate_lane_allocation (north south : ℕ) (total_lanes : ℤ := 8) : ℤ × ℤ :=
  if north + south = 0 then (total_lanes / 2, total_lanes / 2)
  else
    let north_lanes : ℤ := max 1 (pyRound (north_ratio north south * (total_lanes : ℚ)))
    let south_lanes : ℤ := max 1 (total_lanes - north_lanes)
    (north_lanes, south_lanes)

theorem north_ratio_nonneg (north south : ℕ) : 0 ≤ north_ratio north south := by
  unfold north_ratio
  positivity

theorem north_ratio_le_one (north south : ℕ) (h : 0 < north + south) :
    north_ratio north south ≤ 1 := by
  unfold north_ratio
  rw [div_le_one (by exact_mod_cast h)]
  exact_mod_cast Nat.le_add_right north south

/-- The heart of the allocator: with positive volume and `total_lanes ≥ 2`,
writing `k` for the rounded share, the result is `(max 1 k, max 1 (T - max 1 k))`
and `0 ≤ k ≤ T`. -/
theorem alloc_eq (north south : ℕ) (T : ℤ) (h : 0 < north + south) (hT : 2 ≤ T) :
    0 ≤ pyRound (north_ratio north south * (T : ℚ)) ∧
    pyRound (north_ratio north south * (T : ℚ)) ≤ T ∧
    calculate_lane_allocation north south T =
      (max 1 (pyRound (north_ratio north south * (T : ℚ))),
       max 1 (T - max 1 (pyRound (north_ratio north south * (T : ℚ))))) := by
  have hTq : (0:ℚ) ≤ (T : ℚ) := by exact_mod_cast le_trans (by norm_num) hT
  refine ⟨pyRound_nonneg _ (mul_nonneg (north_ratio_nonneg north south) hTq), ?_, ?_⟩
  · apply pyRound_le_of_le
    calc north_ratio north south * (T : ℚ) ≤ 1 * (T : ℚ) :=
          mul_le_mul_of_nonneg_right (north_ratio_le_one north south h) hTq
    _ = (T : ℚ) := one_mul _
  · unfold calculate_lane_allocation
    rw [if_neg (by omega)]

/-- Claim C1, as stated, is false: `calculate_lane_allocation 100 1 8`
returns `(8, 1)`, whose sum is `9 ≠ 8`, violating the claimed invariant
`north_lanes + south_lanes = total_lanes`. -/
theorem c1_counterexample :
    calculate_lane_allocation 100 1 8 = (8, 1) ∧
    (calculate_lane_allocation 100 1 8).1 +
      (calculate_lane_allocation 100 1 8).2 ≠ 8 := by
  constructor
  · norm_num [calculate_lane_allocation, north_ratio, pyRound]
  · norm_num [calculate_lane_allocation, north_ratio, pyRound]

/-- Claim C1 (amended): for north ≥ 0, south ≥ 0 with north + south > 0 and
total_lanes ≥ 2, both directions get at least one lane, and the lane sum is
either `total_lanes` or `total_lanes + 1` (the latter in the rounding
over-allocation case). -/
theorem c1_lane_allocation (north south : ℕ) (total_lanes : ℤ)
    (h : 0 < north + south) (hT : 2 ≤ total_lanes) :
    1 ≤ (calculate_lane_allocation north south total_lanes).1 ∧
    1 ≤ (calculate_lane_allocation north south total_lanes).2 ∧
    ((calculate_lane_allocation north south total_lanes).1 +
       (calculate_lane_allocation north south total_lanes).2 = total_lanes ∨
     (calculate_lane_allocation north south total_lanes).1 +
       (calculate_lane_allocation north south total_lanes).2 = total_lanes + 1) := by
  obtain ⟨h0, hle, heq⟩ := alloc_eq north south total_lanes h hT
  rw [heq]
  dsimp
  omega

/-- Witness for C1's amended theorem at north = 3, south = 5, total = 8. -/
theorem c1_lane_allocation_witness :
    1 ≤ (calculate_lane_allocation 3 5 8).1 ∧
    1 ≤ (calculate_lane_allocation 3 5 8).2 ∧
    ((calculate_lane_allocation 3 5 8).1 +
       (calculate_lane_allocation 3 5 8).2 = 8 ∨
     (calculate_lane_allocation 3 5 8).1 +
       (calculate_lane_allocation 3 5 8).2 = 8 + 1) :=
  c1_lane_allocation 3 5 8 (by norm_num) (by norm_num)

/-- Claim C9: the lane sum equals `total_lanes` exactly unless the rounded
north share `k` equals `total_lanes`, in which case the result is
`(total_lanes, 1)` and the sum is `total_lanes + 1`; when `k = 0` the
result is `(1, total_lanes - 1)`, preserving the sum (no symmetric
over-allocation on the south side). -/
theorem c9_asymmetric_overallocation (north south : ℕ) (total_lanes : ℤ)
    (h : 0 < north + south) (hT : 2 ≤ total_lanes) :
    ((calculate_lane_allocation north south total_lanes).1 +
       (calculate_lane_allocation north south total_lanes).2 = total_lanes ↔
     pyRound (north_ratio north south * (total_lanes : ℚ)) ≠ total_lanes) ∧
    (pyRound (north_ratio north south * (total_lanes : ℚ)) = total_lanes →
      calculate_lane_allocation north south total_lanes = (total_lanes, 1) ∧
      (calculate_lane_allocation north south total_lanes).1 +
        (calculate_lane_allocation north south total_lanes).2 = total_lanes + 1) ∧
    (pyRound (north_ratio north south * (total_lanes : ℚ)) = 0 →
      calculate_lane_allocation north south total_lanes = (1, total_lanes - 1) ∧
      (calculate_lane_allocation north south total_lanes).1 +
        (calculate_lane_allocation north south total_lanes).2 = total_lanes) := by
  obtain ⟨h0, hle, heq⟩ := alloc_eq north south total_lanes h hT
  rw [heq]
  dsimp
  refine ⟨by constructor <;> intro hk <;> omega, fun hk => ?_, fun hk => ?_⟩
  · rw [hk]
    constructor
    · rw [Prod.mk.injEq]
      omega
    · dsimp
      omega
  · rw [hk]
    constructor
    · rw [Prod.mk.injEq]
      omega
    · dsimp
      omega

/-- Witness for C9 at north = 100, south = 1, total = 8: the rounded share
is 8, the result is (8, 1) and the sum is 9. -/
theorem c9_asymmetric_overallocation_witness :
    calculate_lane_allocation 100 1 8 = ((8:ℤ), 1) ∧
    (calculate_lane_allocation 100 1 8).1 +
      (calculate_lane_allocation 100 1 8).2 = (8:ℤ) + 1 :=
  (c9_asymmetric_overallocation 100 1 8 (by norm_num) (by norm_num)).2.1
    (by norm_num [north_ratio, pyRound])

/-- src/lane.py line 101: `base_delay = max(north_traffic/4, south_traffic/4)`. -/
def base_delay (north south : ℕ) : ℚ :=
  max ((north : ℚ) / 4) ((south : ℚ) / 4)

/-- src/lane.py line 102, using the allocation of line 92 (default 8-lane
pool): `optimized_delay = max(north/north_lanes, south/south_lanes)`. -/
def optimized_delay (north south : ℕ) : ℚ :=
  max ((north : ℚ) / (((calculate_lane_allocation north south 8).1 : ℤ) : ℚ))
      ((south : ℚ) / (((calculate_lane_allocation north south 8).2 : ℤ) : ℚ))

/-- src/lane.py line 103: `((base_delay - optimized_delay)/base_delay)*100`.
When `base_delay = 0` the Python division raises, so that case is modelled
as `none`. -/
def efficiency_gain (north south : ℕ) : Option ℚ :=
  if base_delay north south = 0 then none
  else some ((base_delay north south - optimized_delay north south) /
    base_delay north south * 100)

/-- Modelled from the claim's words: baseline delay with divisor 2
("equal static 2-lane-per-direction baseline"), for comparison with the
source's `base_delay`. -/
def claim_base_delay (north south : ℕ) : ℚ :=
  max ((north : ℚ) / 2) ((south : ℚ) / 2)

/-- Modelled from the claim's words: the efficiency metric computed with
`claim_base_delay` instead of the source's `base_delay`. -/
def claim_efficiency_gain (north south : ℕ) : Option ℚ :=
  if claim_base_delay north south = 0 then none
  else some ((claim_base_delay north south - optimized_delay north south) /
    claim_base_delay north south * 100)

theorem base_delay_pos (north south : ℕ) (h : 0 < north + south) :
    0 < base_delay north south := by
  unfold base_delay
  have hns : 0 < north ∨ 0 < south := by omega
  rcases hns with hn | hs
  · have hq : (0:ℚ) < north := by exact_mod_cast hn
    exact lt_of_lt_of_le (div_pos hq (by norm_num)) (le_max_left _ _)
  · have hq : (0:ℚ) < south := by exact_mod_cast hs
    exact lt_of_lt_of_le (div_pos hq (by norm_num)) (le_max_right _ _)

/-- Claim C4, as stated, is false: the source's baseline divides by 4, not
by 2. At north = 4, south = 0 the code's metric is 50 while the claimed
formula gives 75. -/
theorem c4_counterexample :
    efficiency_gain 4 0 = some 50 ∧
    claim_efficiency_gain 4 0 = some 75 ∧
    efficiency_gain 4 0 ≠ claim_efficiency_gain 4 0 := by
  refine ⟨?_, ?_, ?_⟩ <;>
    norm_num [efficiency_gain, claim_efficiency_gain, base_delay,
      claim_base_delay, optimized_delay, calculate_lane_allocation,
      north_ratio, pyRound]

/-- Claim C4 (amended): the baseline is `max(north/4, south/4)` (static
4-lanes-per-direction split of the 8-lane pool); whenever total volume is
positive the gain `(base_delay - optimized_delay)/base_delay * 100` is
defined, and at zero volume the division is undefined (a raised
`ZeroDivisionError`, modelled as `none`), not a zero fallback. -/
theorem c4_efficiency (north south : ℕ) (h : 0 < north + south) :
    efficiency_gain north south =
      some ((base_delay north south - optimized_delay north south) /
        base_delay north south * 100) ∧
    efficiency_gain 0 0 = none := by
  constructor
  · unfold efficiency_gain
    rw [if_neg (base_delay_pos north south h).ne']
  · norm_num [efficiency_gain, base_delay]

/-- Witness for C4's amended theorem at north = 4, south = 0. -/
theorem c4_efficiency_witness :
    efficiency_gain 4 0 =
      some ((base_delay 4 0 - optimized_delay 4 0) / base_delay 4 0 * 100) ∧
    efficiency_gain 0 0 = none :=
  c4_efficiency 4 0 (by norm_num)

/-- src/pricing.py lines 46-53, `dynamic_pricing`: first-match-wins on the
row's traffic level; level 5 is free, level ≥ 3 is surged, else base. -/
def dynamic_pricing (traffic_level : ℤ) (base_price surge_multiplier : ℚ) : ℚ :=
  if traffic_level = 5 then 0
  else if 3 ≤ traffic_level then base_price * surge_multiplier
  else base_price

/-- Claim C2: for traffic level in 1..5, base price ≥ 0 and surge > 0, the
rule table holds in order (5 ↦ 0, {3,4} ↦ base × surge, {1,2} ↦ base), and
price(100, 5, 2) = 0, price(100, 3, 2) = 200, price(100, 1, 2) = 100. -/
theorem c2_pricing_rules (traffic_level : ℤ) (base_price surge_multiplier : ℚ)
    (hb : 0 ≤ base_price) (hl : 1 ≤ traffic_level) (hl5 : traffic_level ≤ 5)
    (hs : 0 < surge_multiplier) :
    (traffic_level = 5 →
      dynamic_pricing traffic_level base_price surge_multiplier = 0) ∧
    (traffic_level = 3 ∨ traffic_level = 4 →
      dynamic_pricing traffic_level base_price surge_multiplier =
        base_price * surge_multiplier) ∧
    (traffic_level = 1 ∨ traffic_level = 2 →
      dynamic_pricing traffic_level base_price surge_multiplier = base_price) ∧
    dynamic_pricing 5 100 2 = 0 ∧
    dynamic_pricing 3 100 2 = 200 ∧
    dynamic_pricing 1 100 2 = 100 := by
  refine ⟨?_, ?_, ?_, by norm_num [dynamic_pricing], by norm_num [dynamic_pricing],
    by norm_num [dynamic_pricing]⟩
  · intro h5
    subst h5
    norm_num [dynamic_pricing]
  · rintro (h | h) <;> subst h <;> norm_num [dynamic_pricing]
  · rintro (h | h) <;> subst h <;> norm_num [dynamic_pricing]

/-- Witness for C2 at level 3, base 100, surge 2. -/
theorem c2_pricing_rules_witness :
    (3 = (5:ℤ) → dynamic_pricing 3 100 2 = 0) ∧
    ((3:ℤ) = 3 ∨ (3:ℤ) = 4 → dynamic_pricing 3 100 2 = (100:ℚ) * 2) ∧
    ((3:ℤ) = 1 ∨ (3:ℤ) = 2 → dynamic_pricing 3 100 2 = 100) ∧
    dynamic_pricing 5 100 2 = 0 ∧
    dynamic_pricing 3 100 2 = 200 ∧
    dynamic_pricing 1 100 2 = 100 :=
  c2_pricing_rules 3 100 2 (by norm_num) (by norm_num) (by norm_num) (by norm_num)

/-- src/Geospatial.py lines 30-34: nested `np.where` on `total_traffic`,
High above 50, Medium above 25, else Low. -/
def congestion_level (traffic_count : ℕ) : String :=
  if 50 < traffic_count then "High"
  else if 25 < traffic_count then "Medium"
  else "Low"

/-- Claim C3: the threshold policy is High iff count > 50, Medium iff
25 < count ≤ 50, Low iff count ≤ 25; boundary values 25 ↦ Low, 26 ↦ Medium,
50 ↦ Medium, 51 ↦ High. -/
theorem c3_threshold_policy (c : ℕ) :
    (congestion_level c = "High" ↔ 50 < c) ∧
    (congestion_level c = "Medium" ↔ 25 < c ∧ c ≤ 50) ∧
    (congestion_level c = "Low" ↔ c ≤ 25) ∧
    congestion_level 25 = "Low" ∧ congestion_level 26 = "Medium" ∧
    congestion_level 50 = "Medium" ∧ congestion_level 51 = "High" := by
  unfold congestion_level
  refine ⟨?_, ?_, ?_, by norm_num, by norm_num, by norm_num, by norm_num⟩ <;>
    split_ifs with h1 h2 <;> simp_all <;> omega

/-- One input toll record, as consumed by src/Geospatial.py's
`calculate_congestion`: a possibly missing plaza id (pandas NaN is `none`),
the parsed hour, the processing time and the lane identifier. -/
structure TollRow where
  merchant_name : Option String
  hour : ℤ
  inn_rr_time_sec : ℚ
  lane : ℕ
deriving DecidableEq

/-- One row of the congestion table built by src/Geospatial.py lines 24-28
(the derived congestion_level column is recomputed from `total_traffic`
where needed). -/
structure Bucket where
  merchant_name : String
  hour : ℤ
  total_traffic : ℕ
  avg_processing_time : Option ℚ
  lanes_open : ℕ
deriving DecidableEq

/-- First-occurrence deduplication, the order pandas `unique`/`nunique`
use. -/
def uniqueFirst {α : Type} [DecidableEq α] : List α → List α
  | [] => []
  | x :: xs => x :: (uniqueFirst xs).filter (fun y => decide (y ≠ x))

/-- pandas `mean` aggregation: NaN (here `none`) on an empty series, the
arithmetic mean otherwise (src/Geospatial.py line 26). -/
def meanAgg (xs : List ℚ) : Option ℚ :=
  if xs = [] then none else some (xs.sum / (xs.length : ℚ))

/-- src/pricing.py line 28, the `avg_speed` aggregator
`lambda x: np.mean(x) if not x.empty else 0`: the numeric value 0 on an
empty series, the arithmetic mean otherwise. -/
def avg_speed_agg (xs : List ℚ) : ℚ :=
  if xs = [] then 0 else xs.sum / (xs.length : ℚ)

/-- The group keys of `df.groupby(['merchant_name', 'hour'])`: pandas
silently drops rows whose key contains NaN, hence the `filterMap`.  (pandas
additionally sorts the keys; no claim depends on key order, so
first-occurrence order is used.) -/
def groupKeys (rows : List TollRow) : List (String × ℤ) :=
  uniqueFirst (rows.filterMap (fun r => r.merchant_name.map (fun m => (m, r.hour))))

/-- The rows of one `(merchant_name, hour)` group. -/
def groupRows (rows : List TollRow) (m : String) (h : ℤ) : List TollRow :=
  rows.filter (fun r => decide (r.merchant_name = some m ∧ r.hour = h))

/-- src/Geospatial.py lines 21-35, `calculate_congestion`: group by
(merchant_name, hour), count rows, take the mean processing time and the
number of distinct lanes. -/
def calculate_congestion (rows : List TollRow) : List Bucket :=
  (groupKeys rows).map (fun k =>
    { merchant_name := k.1, hour := k.2,
      total_traffic := (groupRows rows k.1 k.2).length,
      avg_processing_time :=
        meanAgg ((groupRows rows k.1 k.2).map (fun r => r.inn_rr_time_sec)),
      lanes_open :=
        (uniqueFirst ((groupRows rows k.1 k.2).map (fun r => r.lane))).length })

theorem uniqueFirst_subset {α : Type} [DecidableEq α] (l : List α) (x : α)
    (h : x ∈ uniqueFirst l) : x ∈ l := by
  induction l with
  | nil => simpa [uniqueFirst] using h
  | cons a t ih =>
    simp only [uniqueFirst] at h
    rcases List.mem_cons.mp h with h1 | h2
    · exact h1 ▸ List.mem_cons_self a t
    · exact List.mem_cons_of_mem a (ih (List.mem_of_mem_filter h2))

theorem filterMap_drop_missing (rows : List TollRow) :
    (rows.filter (fun r => r.merchant_name.isSome)).filterMap
      (fun r => r.merchant_name.map (fun m => (m, r.hour))) =
    rows.filterMap (fun r => r.merchant_name.map (fun m => (m, r.hour))) := by
  induction rows with
  | nil => rfl
  | cons r t ih =>
    cases hr : r.merchant_name with
    | none => simp [List.filter_cons, List.filterMap_cons, hr, ih]
    | some m => simp [List.filter_cons, List.filterMap_cons, hr, ih]

theorem groupRows_drop_missing (rows : List TollRow) (m : String) (h : ℤ) :
    groupRows (rows.filter (fun r => r.merchant_name.isSome)) m h =
      groupRows rows m h := by
  unfold groupRows
  rw [List.filter_filter]
  refine List.filter_congr (fun r _ => ?_)
  cases hr : r.merchant_name <;> simp [hr]

/-- Claim C7, as stated, is false: on an input containing a record with a
missing plaza_id, the classifier does not fail; it returns the buckets of
the remaining records (the NaN-keyed record is silently dropped by the
groupby). -/
theorem c7_counterexample :
    calculate_congestion [⟨none, 9, 5, 1⟩, ⟨some "A", 9, 5, 1⟩] =
      [⟨"A", 9, 1, some 5, 1⟩] := by
  simp [calculate_congestion, groupKeys, groupRows, meanAgg, uniqueFirst,
    List.filter_cons, decide_eq_true_eq]

/-- Claim C7 (amended): records with a missing plaza_id are silently
dropped: classification of any record list coincides with classification
of the list with those records removed; no error of any kind is raised. -/
theorem c7_missing_plaza_dropped (rows : List TollRow) :
    calculate_congestion rows =
      calculate_congestion (rows.filter (fun r => r.merchant_name.isSome)) := by
  unfold calculate_congestion groupKeys
  rw [filterMap_drop_missing]
  refine List.map_congr_left (fun k _ => ?_)
  rw [groupRows_drop_missing]

/-- Claim C8, as stated, is false: the pricing.py aggregator applied to an
empty series returns the numeric value 0, not a missing/NaN marker (only
the Geospatial `mean` aggregator yields NaN, i.e. `none`). -/
theorem c8_counterexample :
    avg_speed_agg [] = 0 ∧ meanAgg [] = none := ⟨rfl, rfl⟩

/-- Claim C8 (amended): on every nonempty group both aggregators return the
arithmetic mean; on an empty series the pricing.py aggregator returns the
numeric value 0 while the Geospatial `mean` returns NaN (`none`); and every
bucket actually produced by the classifier comes from a nonempty group, so
its average is never the empty-group default. -/
theorem c8_avg_processing :
    (∀ xs : List ℚ, xs ≠ [] →
      avg_speed_agg xs = xs.sum / (xs.length : ℚ) ∧
      meanAgg xs = some (xs.sum / (xs.length : ℚ))) ∧
    avg_speed_agg [] = 0 ∧
    meanAgg [] = none ∧
    ∀ (rows : List TollRow) (b : Bucket), b ∈ calculate_congestion rows →
      b.avg_processing_time ≠ none := by
  refine ⟨fun xs hxs => ⟨?_, ?_⟩, rfl, rfl, ?_⟩
  · unfold avg_speed_agg
    rw [if_neg hxs]
  · unfold meanAgg
    rw [if_neg hxs]
  · intro rows b hb
    unfold calculate_congestion at hb
    rw [List.mem_map] at hb
    obtain ⟨k, hk, rfl⟩ := hb
    dsimp only
    have hex : ∃ r ∈ rows, r.merchant_name = some k.1 ∧ r.hour = k.2 := by
      unfold groupKeys at hk
      have hk' := uniqueFirst_subset _ _ hk
      rw [List.mem_filterMap] at hk'
      obtain ⟨r, hr, hfr⟩ := hk'
      cases hmr : r.merchant_name with
      | none =>
        rw [hmr] at hfr
        simp at hfr
      | some m =>
        rw [hmr] at hfr
        simp only [Option.map_some'] at hfr
        have hk2 : (m, r.hour) = k := by injection hfr
        subst hk2
        exact ⟨r, hr, hmr, rfl⟩
    obtain ⟨r, hr, hm, hh⟩ := hex
    have hrg : r ∈ groupRows rows k.1 k.2 := by
      unfold groupRows
      rw [List.mem_filter]
      exact ⟨hr, by simp [hm, hh]⟩
    have hne : (groupRows rows k.1 k.2).map (fun r => r.inn_rr_time_sec) ≠ [] := by
      simp only [ne_eq, List.map_eq_nil_iff]
      exact List.ne_nil_of_mem hrg
    unfold meanAgg
    rw [if_neg hne]
    simp

/-- Witness for C8's amended theorem on the nonempty series [2, 4], where
both aggregators return the mean 3. -/
theorem c8_avg_processing_witness :
    avg_speed_agg [2, 4] =
      (([2, 4] : List ℚ).sum / ((([2, 4] : List ℚ).length : ℕ) : ℚ)) ∧
    meanAgg [2, 4] =
      some (([2, 4] : List ℚ).sum / ((([2, 4] : List ℚ).length : ℕ) : ℚ)) :=
  ⟨(c8_avg_processing.1 [2, 4] (by simp)).1,
   (c8_avg_processing.1 [2, 4] (by simp)).2⟩

/-- src/Geospatial.py lines 107-111: the recommendation filter on the
congestion table — nearby plaza, current hour, congestion_level == 'Low'
(the congestion_level column is the threshold classification of
`total_traffic`).  No sorting is applied. -/
def alt_plazas (congestion : List Bucket) (nearby : List String) (hour : ℤ) :
    List Bucket :=
  congestion.filter (fun b => decide (b.merchant_name ∈ nearby ∧ b.hour = hour ∧
    congestion_level b.total_traffic = "Low"))

/-- Modelled from the claim's words: the result is ordered by ascending
distance from the origin, ties broken by ascending traffic count. -/
def sortedByDistThenCount (dist : String → ℚ) : List Bucket → Bool
  | [] => true
  | [_] => true
  | a :: b :: rest =>
      (decide (dist a.merchant_name < dist b.merchant_name ∨
        (dist a.merchant_name = dist b.merchant_name ∧
         a.total_traffic ≤ b.total_traffic))) &&
      sortedByDistThenCount dist (b :: rest)

/-- Claim C6, as stated, is false: with plaza "A" (traffic 20) listed before
plaza "B" (traffic 10) in the congestion table and "B" strictly nearer to
the origin than "A", the code returns [A, B] — table order, not
distance-then-count order. -/
theorem c6_counterexample :
    alt_plazas [⟨"A", 9, 20, none, 1⟩, ⟨"B", 9, 10, none, 1⟩] ["A", "B"] 9 =
      [⟨"A", 9, 20, none, 1⟩, ⟨"B", 9, 10, none, 1⟩] ∧
    sortedByDistThenCount (fun s => if s = "A" then 2 else 1)
      (alt_plazas [⟨"A", 9, 20, none, 1⟩, ⟨"B", 9, 10, none, 1⟩] ["A", "B"] 9) =
      false := by
  constructor
  · decide
  · decide

/-- Claim C6 (amended): the recommendation returns exactly the candidates
whose congestion level is Low at the given hour, as a subsequence of the
congestion table (its original order, no sorting by distance or traffic
count); when no candidate qualifies the result is the empty list, not an
error. -/
theorem c6_low_filter (congestion : List Bucket) (nearby : List String)
    (hour : ℤ) :
    List.Sublist (alt_plazas congestion nearby hour) congestion ∧
    (∀ b : Bucket, b ∈ alt_plazas congestion nearby hour ↔
      (b ∈ congestion ∧ b.merchant_name ∈ nearby ∧ b.hour = hour ∧
       congestion_level b.total_traffic = "Low")) := by
  constructor
  · exact List.filter_sublist congestion
  · intro b
    unfold alt_plazas
    rw [List.mem_filter]
    simp [decide_eq_true_eq]

/-- One row of the dataframe as used by the nearby-plaza search of
src/Geospatial.py lines 74-84: the plaza name and the row's haversine
distance from the selected plaza's coordinates.  The haversine itself
(external library, real-valued trigonometry) is abstracted: the claim is
about the inclusive radius comparison and the origin exclusion, which act
on the computed distance column. -/
structure GeoRow where
  merchant_name : String
  distance : ℚ
deriving DecidableEq

/-- src/Geospatial.py lines 78-81: rows with `distance <= radius` and
`merchant_name != selected_plaza`, then the unique merchant names. -/
def nearby_plazas (rows : List GeoRow) (radius : ℚ) (selected : String) :
    List String :=
  uniqueFirst ((rows.filter (fun r =>
    decide (r.distance ≤ radius ∧ r.merchant_name ≠ selected))).map
      (fun r => r.merchant_name))

theorem mem_uniqueFirst {α : Type} [DecidableEq α] (l : List α) (x : α) :
    x ∈ uniqueFirst l ↔ x ∈ l := by
  induction l with
  | nil => simp [uniqueFirst]
  | cons a t ih =>
    simp only [uniqueFirst, List.mem_cons, List.mem_filter, ih,
      decide_eq_true_eq]
    by_cases hx : x = a
    · simp [hx]
    · simp [hx]

/-- Claim C10: a plaza distinct from the selected one is in the nearby set
exactly when some of its rows lies at distance ≤ radius — the boundary is
inclusive. -/
theorem c10_nearby_inclusive (rows : List GeoRow) (radius : ℚ)
    (selected m : String) (hm : m ≠ selected) :
    m ∈ nearby_plazas rows radius selected ↔
      ∃ r ∈ rows, r.merchant_name = m ∧ r.distance ≤ radius := by
  unfold nearby_plazas
  rw [mem_uniqueFirst]
  simp only [List.mem_map, List.mem_filter, decide_eq_true_eq]
  constructor
  · rintro ⟨r, ⟨hr, hd, _⟩, rfl⟩
    exact ⟨r, hr, rfl, hd⟩
  · rintro ⟨r, hr, hrm, hd⟩
    exact ⟨r, ⟨hr, hd, by rw [hrm]; exact hm⟩, hrm⟩

/-- Witness for C10: a plaza "B" at distance exactly the radius (5 km) is
included when searching from plaza "A". -/
theorem c10_nearby_inclusive_witness :
    "B" ≠ "A" ∧ "B" ∈ nearby_plazas [⟨"B", 5⟩] 5 "A" :=
  ⟨by decide,
   (c10_nearby_inclusive [⟨"B", 5⟩] 5 "A" "B" (by decide)).mpr
     ⟨⟨"B", 5⟩, by simp, rfl, le_refl 5⟩⟩

/-- Total list indexing with a default, used to model numpy positional
indexing without dependent bounds proofs. -/
def nthD : List ℚ → ℕ → ℚ → ℚ
  | [], _, d => d
  | x :: _, 0, _ => x
  | _ :: xs, n+1, d => nthD xs n d

def insertSorted (x : ℚ) : List ℚ → List ℚ
  | [] => [x]
  | y :: ys => if x ≤ y then x :: y :: ys else y :: insertSorted x ys

/-- Ascending sort (insertion sort), the order numpy sorting produces. -/
def sortQ (xs : List ℚ) : List ℚ := xs.foldr insertSorted []

/-- The pandas/numpy quantile of a nonempty sample at probability p, with
linear interpolation: on the ascending sort s of length n, with
h = p(n-1), the value is s[⌊h⌋] + (h-⌊h⌋)(s[⌊h⌋+1] - s[⌊h⌋]). -/
def pandasQuantile (xs : List ℚ) (p : ℚ) : ℚ :=
  let s := sortQ xs
  let h : ℚ := p * ((s.length : ℚ) - 1)
  let i : ℕ := (⌊h⌋).toNat
  let lo := nthD s i 0
  let hi := nthD s (i + 1) lo
  lo + (h - (⌊h⌋ : ℚ)) * (hi - lo)

/-- The 6 bin edges `pd.qcut(values, q=5)` computes: the quantiles at
0, 1/5, 2/5, 3/5, 4/5, 1. -/
def qcutEdges (xs : List ℚ) : List ℚ :=
  (List.range 6).map (fun i => pandasQuantile xs ((i : ℚ) / 5))

/-- Collapse adjacent duplicate edges, the effect of `duplicates='drop'`
(quantile edges are already ascending). -/
def dedupAdj : List ℚ → List ℚ
  | [] => []
  | [x] => [x]
  | x :: y :: ys => if x = y then dedupAdj (y :: ys) else x :: dedupAdj (y :: ys)

/-- The bin index of a value: the first interval (e_i, e_i+1] whose upper
edge is not exceeded (the lowest bin is left-inclusive in pandas). -/
def findBin (edges : List ℚ) (v : ℚ) : ℕ :=
  match edges with
  | [] => 0
  | [_] => 0
  | _ :: e :: es => if v ≤ e then 0 else findBin (e :: es) v + 1

/-- Total label lookup with default, mirroring `nthD` at type ℤ. -/
def labelsGetD : List ℤ → ℕ → ℤ → ℤ
  | [], _, d => d
  | x :: _, 0, _ => x
  | _ :: xs, n+1, d => labelsGetD xs n d

/-- The call `pd.qcut(values, q=5, labels=[1,2,3,4,5], duplicates='drop')`
at src/pricing.py lines 36-39: compute the 6 quantile edges, drop
duplicates, and — because the explicit label list must be exactly one
shorter than the deduplicated edge list — raise ValueError whenever any
edge was dropped; otherwise label each value by its bin. -/
def qcut5 (xs : List ℚ) : Except String (List ℤ) :=
  if 5 = (dedupAdj (qcutEdges xs)).length - 1 then
    Except.ok (xs.map (fun v =>
      labelsGetD [1, 2, 3, 4, 5] (findBin (dedupAdj (qcutEdges xs)) v) 0))
  else Except.error "Bin labels must be one fewer than the number of bin edges"

/-- src/pricing.py lines 34-42: the try/except around `pd.qcut` on the
per-bucket traffic counts.  On ValueError every bucket's traffic_level is
set to the fallback 3 and an error message is surfaced (`st.error`),
modelled by the Bool flag. -/
def pricing_traffic_levels (counts : List ℕ) : List ℤ × Bool :=
  match qcut5 (counts.map (fun c => (c : ℚ))) with
  | Except.ok ls => (ls, false)
  | Except.error _ => (counts.map (fun _ => 3), true)

/-- Claim C5, as stated, is false: on counts [1×9, 100] — two distinct
values, so a collapsed binning with fewer than 5 levels would be possible —
qcut raises ValueError (the 5 fixed labels mismatch the deduplicated
edges), and the handler assigns the fallback level 3 to every bucket with
the warning flag set; no collapsed fewer-than-5-level result is ever
produced. -/
theorem c5_counterexample :
    qcut5 (([1, 1, 1, 1, 1, 1, 1, 1, 1, 100] : List ℕ).map (fun c => (c : ℚ))) =
      Except.error "Bin labels must be one fewer than the number of bin edges" ∧
    pricing_traffic_levels [1, 1, 1, 1, 1, 1, 1, 1, 1, 100] =
      ([3, 3, 3, 3, 3, 3, 3, 3, 3, 3], true) := by
  constructor
  · norm_num [qcut5, qcutEdges, pandasQuantile, sortQ, insertSorted, dedupAdj,
      nthD, List.range_succ, Int.toNat_ofNat]
  · norm_num [pricing_traffic_levels, qcut5, qcutEdges, pandasQuantile, sortQ,
      insertSorted, dedupAdj, nthD, List.range_succ, Int.toNat_ofNat]

/-- Claim C5 (amended): whenever the five quantile bins are degenerate —
i.e. dropping duplicate edges leaves fewer than 6 edges, which covers the
all-values-equal case — the explicit 5-label list no longer matches, qcut
raises ValueError, and the caller's handler assigns level 3 to every
bucket and surfaces an error signal; no fatal error escapes. -/
theorem c5_qcut_fallback (counts : List ℕ)
    (h : (dedupAdj (qcutEdges (counts.map (fun c => (c : ℚ))))).length < 6) :
    pricing_traffic_levels counts = (counts.map (fun _ => 3), true) := by
  unfold pricing_traffic_levels qcut5
  have h5 : ¬ (5 = (dedupAdj (qcutEdges (counts.map (fun c => (c : ℚ))))).length - 1) := by
    omega
  rw [if_neg h5]

/-- Witness for C5's amended theorem on all-equal counts [7,7,7,7,7]: the
edges collapse to a single edge and every bucket gets level 3 with the
warning flag. -/
theorem c5_qcut_fallback_witness :
    (dedupAdj (qcutEdges (([7, 7, 7, 7, 7] : List ℕ).map (fun c => (c : ℚ))))).length < 6 ∧
    pricing_traffic_levels [7, 7, 7, 7, 7] = ([3, 3, 3, 3, 3], true) :=
  ⟨by norm_num [qcutEdges, pandasQuantile, sortQ, insertSorted, dedupAdj,
      nthD, List.range_succ, Int.toNat_ofNat],
   c5_qcut_fallback [7, 7, 7, 7, 7]
     (by norm_num [qcutEdges, pandasQuantile, sortQ, insertSorted, dedupAdj,
       nthD, List.range_succ, Int.toNat_ofNat])⟩
